import Mathlib

/-!
Shallow embedding of the Morphix safety-invariant gate engine.

Sources embedded:
- `src/microsociety/src/biorail_terrasafe.rs` (scalar risk gate:
  `BioRailTerrasafeGuard` with `compute_biosignature`, `apply_justice_tuning`,
  `check_envelopes`, `check_bioload`, `check_power_church`,
  `predict_post_state`, `gate`).
- `src/crates/policyengine/src/reversalconditions.rs` (capability reversal
  guard: `evaluate_reversal`, `is_neuromorph_downgrade`).

Machine reals (`f64`) are modelled as `ℚ`; the source's NaN coercion in
`RailScalar::new_clamped` has no counterpart because `ℚ` has no NaN, and no
property below depends on NaN inputs.  Rust's `x.clamp(lo, hi)` for `lo ≤ hi`
is `max lo (min hi x)`; `x.max(0.0)` is `max x 0`.

The Rust `gate` begins with `debug_assert!(site.diag.role_diagnostic_only)`.
In a release (production) build `debug_assert!` is compiled out, so the gate
simply proceeds; the embedding models that release semantics, which is the
behaviour relevant to the spec's fail-closed requirement.
-/

/-- The `1e-9` floating-point tolerance used by every check in
`biorail_terrasafe.rs`. -/
def eps : ℚ := 1 / 1000000000

/-- Rust `x.clamp(0.0, 1.0)`. -/
def clamp01 (x : ℚ) : ℚ := max 0 (min 1 x)

/-- `RailScalar`: bounded scalar wrapper (`pub struct RailScalar(f64)`). -/
structure RailScalar where
  val : ℚ
deriving DecidableEq

/-- `RailScalar::new_clamped` (NaN branch vacuous over `ℚ`). -/
def RailScalar.new_clamped (x : ℚ) : RailScalar := ⟨clamp01 x⟩

/-- `RailScalar::value`. -/
def RailScalar.value (s : RailScalar) : ℚ := s.val

/-- `BioEnvelope`. -/
structure BioEnvelope where
  roh : ℚ
  decay : ℚ
  lifeforce : ℚ
  lifeforce_min : ℚ
  lifeforce_max : ℚ
deriving DecidableEq

/-- `FiveDIdentity`. -/
structure FiveDIdentity where
  biostate_load : ℚ
  neurostate_fear : ℚ
  lifeforce : ℚ
  context_load : ℚ
  sovereignty_trust : ℚ
deriving DecidableEq

/-- `BioLoadView`. -/
structure BioLoadView where
  body : RailScalar
  room : RailScalar
  grid : RailScalar
  body_max : RailScalar
  room_max : RailScalar
  grid_max : RailScalar
deriving DecidableEq

/-- `PowerChurchState`. -/
structure PowerChurchState where
  power : ℚ
  church : ℚ
  k_ratio : ℚ
deriving DecidableEq

/-- `JusticeMetrics`. -/
structure JusticeMetrics where
  hpcc : ℚ
  erg : ℚ
  tecr : ℚ
deriving DecidableEq

/-- `JusticeCorridorConfig`. -/
structure JusticeCorridorConfig where
  hpcc_max : ℚ
  erg_max : ℚ
  tecr_max : ℚ
  tightening_factor : ℚ
deriving DecidableEq

/-- `DiagnosticFlags`. -/
structure DiagnosticFlags where
  beast_tag : Bool
  plague_tag : Bool
  unfair_drain : Bool
  role_diagnostic_only : Bool
deriving DecidableEq

/-- `SiteView`. -/
structure SiteView where
  id : Nat
  bio_env : BioEnvelope
  identity_5d : FiveDIdentity
  bioload_view : BioLoadView
  power_church : PowerChurchState
  justice_metrics : JusticeMetrics
  justice_cfg : JusticeCorridorConfig
  diag : DiagnosticFlags
deriving DecidableEq

/-- `BioRailConfig`. -/
structure BioRailConfig where
  corridor_min : RailScalar
  corridor_max : RailScalar
deriving DecidableEq

/-- `GateVerdict`. -/
inductive GateVerdict where
  | Allow
  | Downscale
  | Block
  | ForceRepair
deriving DecidableEq

/-- `ProposedChange`. -/
structure ProposedChange where
  delta_biostate_load : ℚ
  delta_neurostate_fear : ℚ
  delta_lifeforce : ℚ
  delta_context_load : ℚ
  delta_sovereignty_trust : ℚ
  delta_roh : ℚ
  delta_decay : ℚ
  delta_lifeforce_env : ℚ
  delta_bioload_body : ℚ
  delta_bioload_room : ℚ
  delta_bioload_grid : ℚ
  delta_power : ℚ
deriving DecidableEq

/-- `BioRailTerrasafeGuard::compute_biosignature`. -/
def compute_biosignature (site : SiteView) : RailScalar :=
  let id := site.identity_5d
  let env := site.bio_env
  let roh_norm := clamp01 (env.roh / (3/10))
  let decay_norm := clamp01 env.decay
  let lf_band_width := max (env.lifeforce_max - env.lifeforce_min) (1/1000000000)
  let lf_pos := clamp01 ((env.lifeforce - env.lifeforce_min) / lf_band_width)
  let lf_risk := 1 - lf_pos
  let bio_load := clamp01 id.biostate_load
  let fear := clamp01 id.neurostate_fear
  let ctx := clamp01 id.context_load
  let sovereign := clamp01 id.sovereignty_trust
  let risk_sum :=
    (18/100) * bio_load +
    (18/100) * fear +
    (18/100) * ctx +
    (18/100) * roh_norm +
    (18/100) * decay_norm +
    (10/100) * lf_risk
  let sovereign_relief := (40/100) * sovereign
  let raw := clamp01 (risk_sum - sovereign_relief)
  RailScalar.new_clamped raw

/-- `BioRailTerrasafeGuard::apply_justice_tuning`. -/
def apply_justice_tuning (site : SiteView) (rail_cfg : BioRailConfig)
    (bioload : BioLoadView) : BioRailConfig × BioLoadView :=
  let jm := site.justice_metrics
  let cfg := site.justice_cfg
  if ¬ (jm.hpcc > cfg.hpcc_max ∨ jm.erg > cfg.erg_max ∨ jm.tecr > cfg.tecr_max) then
    (rail_cfg, bioload)
  else
    let factor := clamp01 cfg.tightening_factor
    let mid := (1/2) * (rail_cfg.corridor_min.value + rail_cfg.corridor_max.value)
    let half_width := (1/2) * (rail_cfg.corridor_max.value - rail_cfg.corridor_min.value) * factor
    let tuned_min := RailScalar.new_clamped (mid - half_width)
    let tuned_max := RailScalar.new_clamped (mid + half_width)
    let tuned_bioload : BioLoadView :=
      { body := bioload.body
        room := bioload.room
        grid := bioload.grid
        body_max := RailScalar.new_clamped (bioload.body_max.value * factor)
        room_max := RailScalar.new_clamped (bioload.room_max.value * factor)
        grid_max := RailScalar.new_clamped (bioload.grid_max.value * factor) }
    ({ corridor_min := tuned_min, corridor_max := tuned_max }, tuned_bioload)

/-- `BioRailTerrasafeGuard::check_envelopes`. -/
def check_envelopes (pred_env : BioEnvelope) : Bool :=
  if pred_env.roh > 3/10 + eps then false
  else if pred_env.decay > 1 + eps then false
  else if pred_env.lifeforce < pred_env.lifeforce_min - eps then false
  else if pred_env.lifeforce > pred_env.lifeforce_max + eps then false
  else true

/-- `BioRailTerrasafeGuard::check_bioload`. -/
def check_bioload (pred : BioLoadView) : Bool :=
  decide (pred.body.value ≤ pred.body_max.value + eps) &&
  decide (pred.room.value ≤ pred.room_max.value + eps) &&
  decide (pred.grid.value ≤ pred.grid_max.value + eps)

/-- `BioRailTerrasafeGuard::check_power_church`. -/
def check_power_church (pred_pc : PowerChurchState) : Bool :=
  let k := max pred_pc.k_ratio 0
  let allowed_power := k * max pred_pc.church 0
  decide (pred_pc.power ≤ allowed_power + eps)

/-- `BioRailTerrasafeGuard::predict_post_state`. -/
def predict_post_state (site : SiteView) (change : ProposedChange)
    (tuned_bioload_max : BioLoadView) :
    BioEnvelope × BioLoadView × PowerChurchState × FiveDIdentity :=
  let env : BioEnvelope :=
    { roh := max (site.bio_env.roh + change.delta_roh) 0
      decay := max (site.bio_env.decay + change.delta_decay) 0
      lifeforce := site.bio_env.lifeforce + change.delta_lifeforce_env
      lifeforce_min := site.bio_env.lifeforce_min
      lifeforce_max := site.bio_env.lifeforce_max }
  let id : FiveDIdentity :=
    { biostate_load := clamp01 (site.identity_5d.biostate_load + change.delta_biostate_load)
      neurostate_fear := clamp01 (site.identity_5d.neurostate_fear + change.delta_neurostate_fear)
      lifeforce := site.identity_5d.lifeforce + change.delta_lifeforce
      context_load := clamp01 (site.identity_5d.context_load + change.delta_context_load)
      sovereignty_trust := clamp01 (site.identity_5d.sovereignty_trust + change.delta_sovereignty_trust) }
  let bl : BioLoadView :=
    { body := RailScalar.new_clamped (site.bioload_view.body.value + change.delta_bioload_body)
      room := RailScalar.new_clamped (site.bioload_view.room.value + change.delta_bioload_room)
      grid := RailScalar.new_clamped (site.bioload_view.grid.value + change.delta_bioload_grid)
      body_max := tuned_bioload_max.body_max
      room_max := tuned_bioload_max.room_max
      grid_max := tuned_bioload_max.grid_max }
  let pc : PowerChurchState :=
    { power := max (site.power_church.power + change.delta_power) 0
      church := site.power_church.church
      k_ratio := site.power_church.k_ratio }
  (env, bl, pc, id)

/-- The tuned configuration and bioload ceilings `gate` computes first
(`Self::apply_justice_tuning(site, base_cfg, &site.bioload_view)`). -/
def gateTuned (site : SiteView) (base_cfg : BioRailConfig) : BioRailConfig × BioLoadView :=
  apply_justice_tuning site base_cfg site.bioload_view

/-- The predicted post-change slices `gate` computes
(`Self::predict_post_state(site, proposed, &tuned_bioload_max)`). -/
def gatePred (site : SiteView) (base_cfg : BioRailConfig) (proposed : ProposedChange) :
    BioEnvelope × BioLoadView × PowerChurchState × FiveDIdentity :=
  predict_post_state site proposed (gateTuned site base_cfg).2

/-- The predicted `SiteView` that `gate` builds for the predicted
biosignature (`pred_site_view` in the source). -/
def gatePredSite (site : SiteView) (base_cfg : BioRailConfig) (proposed : ProposedChange) :
    SiteView :=
  { id := site.id
    bio_env := (gatePred site base_cfg proposed).1
    identity_5d := (gatePred site base_cfg proposed).2.2.2
    bioload_view := (gatePred site base_cfg proposed).2.1
    power_church := (gatePred site base_cfg proposed).2.2.1
    justice_metrics := site.justice_metrics
    justice_cfg := site.justice_cfg
    diag := site.diag }

/-- The predicted biosignature `pred_b` in `gate`. -/
def gatePredB (site : SiteView) (base_cfg : BioRailConfig) (proposed : ProposedChange) :
    RailScalar :=
  compute_biosignature (gatePredSite site base_cfg proposed)

/-- `BioRailTerrasafeGuard::gate`, release semantics (the leading
`debug_assert!(site.diag.role_diagnostic_only)` is compiled out in a
production build and is therefore a no-op here). -/
def gate (site : SiteView) (base_cfg : BioRailConfig) (proposed : ProposedChange) :
    GateVerdict :=
  if check_envelopes (gatePred site base_cfg proposed).1 = false then
    GateVerdict.ForceRepair
  else if check_bioload (gatePred site base_cfg proposed).2.1 = false then
    GateVerdict.ForceRepair
  else if check_power_church (gatePred site base_cfg proposed).2.2.1 = false then
    GateVerdict.Block
  else if (gatePredB site base_cfg proposed).value < (gateTuned site base_cfg).1.corridor_min.value ∨
          (gatePredB site base_cfg proposed).value > (gateTuned site base_cfg).1.corridor_max.value then
    if (gatePredB site base_cfg proposed).value > (compute_biosignature site).value then
      GateVerdict.ForceRepair
    else
      GateVerdict.Downscale
  else
    GateVerdict.Allow

/-!  Capability reversal guard (`reversalconditions.rs`).

The `CapabilityState`, `DecisionReason` and `RoHScore` types live in the
crate module `aln_core` / `roh_model`, which is not under `src/`; they are
modelled below from the spec ("CapabilityState lattice:
`{ModelOnly, LabBench, ControlledHuman, GeneralUse}`") and from their usage
in `reversalconditions.rs`.  The `ReversalContext` reference fields that
`evaluate_reversal` never reads (`base`, `roles`, `policy_stack`,
`envelope_ctx`) are modelled as opaque `Unit` placeholders. -/

/-- Modelled from the spec: the capability lattice
`{ModelOnly, LabBench, ControlledHuman, GeneralUse}` from the missing
`aln_core` module, with the `Cap` variant prefixes that
`reversalconditions.rs` matches on. -/
inductive CapabilityState where
  | CapModelOnly
  | CapLabBench
  | CapControlledHuman
  | CapGeneralUse
deriving DecidableEq

/-- Modelled from the spec: the two `DecisionReason` variants of the missing
`aln_core` module that `evaluate_reversal` constructs. -/
inductive DecisionReason where
  | DeniedIllegalDowngradeByNonRegulator
  | DeniedRoHViolation
deriving DecidableEq

/-- Modelled from the spec: `RoHScore` of the missing `roh_model` module; a
risk-of-harm score with a `value` field, as read by `evaluate_reversal`. -/
structure RoHScore where
  value : ℚ
deriving DecidableEq

/-- `ReversalContext` (the four unread reference fields are `Unit`). -/
structure ReversalContext where
  base : Unit
  cap_before : CapabilityState
  cap_after : CapabilityState
  roh_before : RoHScore
  roh_after : RoHScore
  roles : Unit
  policy_stack : Unit
  envelope_ctx : Unit
  diag_event : Bool
deriving DecidableEq

/-- `ReversalDecision`. -/
inductive ReversalDecision where
  | Allowed
  | Denied (reason : DecisionReason)
deriving DecidableEq

/-- `is_neuromorph_downgrade`: the fixed enumerated downgrade set. -/
def is_neuromorph_downgrade (from_ to_ : CapabilityState) : Bool :=
  match from_, to_ with
  | CapabilityState.CapControlledHuman, CapabilityState.CapLabBench => true
  | CapabilityState.CapControlledHuman, CapabilityState.CapModelOnly => true
  | CapabilityState.CapGeneralUse, CapabilityState.CapControlledHuman => true
  | CapabilityState.CapGeneralUse, CapabilityState.CapLabBench => true
  | CapabilityState.CapGeneralUse, CapabilityState.CapModelOnly => true
  | _, _ => false

/-- `evaluate_reversal`. -/
def evaluate_reversal (ctx : ReversalContext) : ReversalDecision :=
  if ctx.diag_event then
    ReversalDecision.Denied DecisionReason.DeniedIllegalDowngradeByNonRegulator
  else if ctx.cap_before = CapabilityState.CapControlledHuman ∧
          ctx.roh_after.value > ctx.roh_before.value then
    ReversalDecision.Denied DecisionReason.DeniedRoHViolation
  else if ctx.cap_before = CapabilityState.CapControlledHuman ∧
          ctx.roh_after.value > 3/10 then
    ReversalDecision.Denied DecisionReason.DeniedRoHViolation
  else if ¬ is_neuromorph_downgrade ctx.cap_before ctx.cap_after = true then
    ReversalDecision.Allowed
  else
    ReversalDecision.Denied DecisionReason.DeniedIllegalDowngradeByNonRegulator

/-! Concrete inputs used by witnesses and counterexamples. -/

/-- A baseline site: all risk inputs 0, lifeforce 1 inside band `[0,1]`,
bioload 0 with ceilings 1, `POWER = 0 ≤ 1·CHURCH = 1`, unstressed justice
metrics, diagnostic-only role set. -/
def site0 : SiteView :=
  { id := 0
    bio_env := { roh := 0, decay := 0, lifeforce := 1, lifeforce_min := 0, lifeforce_max := 1 }
    identity_5d := { biostate_load := 0, neurostate_fear := 0, lifeforce := 1,
                     context_load := 0, sovereignty_trust := 0 }
    bioload_view := { body := ⟨0⟩, room := ⟨0⟩, grid := ⟨0⟩,
                      body_max := ⟨1⟩, room_max := ⟨1⟩, grid_max := ⟨1⟩ }
    power_church := { power := 0, church := 1, k_ratio := 1 }
    justice_metrics := { hpcc := 0, erg := 0, tecr := 0 }
    justice_cfg := { hpcc_max := 1, erg_max := 1, tecr_max := 1, tightening_factor := 4/5 }
    diag := { beast_tag := false, plague_tag := false, unfair_drain := false,
              role_diagnostic_only := true } }

/-- The all-zero proposed change. -/
def change0 : ProposedChange :=
  { delta_biostate_load := 0, delta_neurostate_fear := 0, delta_lifeforce := 0
    delta_context_load := 0, delta_sovereignty_trust := 0
    delta_roh := 0, delta_decay := 0, delta_lifeforce_env := 0
    delta_bioload_body := 0, delta_bioload_room := 0, delta_bioload_grid := 0
    delta_power := 0 }

/-- The full corridor `[0,1]`. -/
def cfg0 : BioRailConfig := { corridor_min := ⟨0⟩, corridor_max := ⟨1⟩ }

/-- A corridor `[1/2, 9/10]` that the baseline biosignature `0` misses. -/
def cfgC4 : BioRailConfig := { corridor_min := ⟨1/2⟩, corridor_max := ⟨9/10⟩ }

/-- `site0` with a change pushing risk-of-harm over its ceiling. -/
def changeRoh : ProposedChange :=
  { change0 with delta_roh := 1 }

/-- `site0` with both the envelope (risk-of-harm 1) and the ratio
(`POWER = 5 > 1·CHURCH = 1`) violated. -/
def siteC5 : SiteView :=
  { site0 with
      bio_env := { roh := 1, decay := 0, lifeforce := 1, lifeforce_min := 0, lifeforce_max := 1 }
      power_church := { power := 5, church := 1, k_ratio := 1 } }

/-- `site0` with only the ratio violated (`POWER = 5 > 1·CHURCH = 1`). -/
def siteC5b : SiteView :=
  { site0 with power_church := { power := 5, church := 1, k_ratio := 1 } }

/-- `site0` with the diagnostic-only role flag unset. -/
def siteC6 : SiteView :=
  { site0 with diag := { beast_tag := false, plague_tag := false, unfair_drain := false,
                         role_diagnostic_only := false } }

/-- A change whose identity lifeforce delta drives the predicted identity
lifeforce to 2. -/
def changeC7 : ProposedChange :=
  { change0 with delta_lifeforce := 1 }

/-- `site0` with the diagnostic `beast_tag` set (all actuation-relevant
fields unchanged). -/
def siteC9 : SiteView :=
  { site0 with diag := { beast_tag := true, plague_tag := false, unfair_drain := false,
                         role_diagnostic_only := true } }

/-- `site0` with biological load raised to 1. -/
def siteC3 : SiteView :=
  { site0 with identity_5d := { biostate_load := 1, neurostate_fear := 0, lifeforce := 1,
                                context_load := 0, sovereignty_trust := 0 } }

/-- A reversal context for the downgrade pair (GeneralUse, ModelOnly) with
the observer flag false. -/
def ctxC2 : ReversalContext :=
  { base := (), cap_before := CapabilityState.CapGeneralUse,
    cap_after := CapabilityState.CapModelOnly,
    roh_before := ⟨1/4⟩, roh_after := ⟨1/2⟩,
    roles := (), policy_stack := (), envelope_ctx := (), diag_event := false }

/-- A reversal context for the pair (LabBench, ModelOnly) with the observer
flag false. -/
def ctxC10 : ReversalContext :=
  { base := (), cap_before := CapabilityState.CapLabBench,
    cap_after := CapabilityState.CapModelOnly,
    roh_before := ⟨1/4⟩, roh_after := ⟨1/2⟩,
    roles := (), policy_stack := (), envelope_ctx := (), diag_event := false }

/-! Helper lemmas. -/

/-- `clamp01` is monotone. -/
theorem clamp01_mono {x y : ℚ} (h : x ≤ y) : clamp01 x ≤ clamp01 y :=
  max_le_max le_rfl (min_le_min le_rfl h)

/-- `clamp01` lands at or above 0. -/
theorem clamp01_nonneg (x : ℚ) : 0 ≤ clamp01 x := le_max_left _ _

/-- `clamp01` lands at or below 1. -/
theorem clamp01_le_one (x : ℚ) : clamp01 x ≤ 1 :=
  max_le (by norm_num) (min_le_left _ _)

/-- `compute_biosignature` reads only the envelope and identity fields. -/
theorem compute_biosignature_congr (s t : SiteView) (henv : s.bio_env = t.bio_env)
    (hident : s.identity_5d = t.identity_5d) :
    compute_biosignature s = compute_biosignature t := by
  unfold compute_biosignature
  rw [henv, hident]

/-- `apply_justice_tuning` reads only the justice fields of the site. -/
theorem apply_justice_tuning_congr (s t : SiteView)
    (hjm : s.justice_metrics = t.justice_metrics)
    (hjc : s.justice_cfg = t.justice_cfg) (cfg : BioRailConfig) (bl : BioLoadView) :
    apply_justice_tuning s cfg bl = apply_justice_tuning t cfg bl := by
  unfold apply_justice_tuning
  rw [hjm, hjc]

/-- `predict_post_state` reads only the envelope, identity, bioload and
power-church fields of the site. -/
theorem predict_post_state_congr (s t : SiteView)
    (henv : s.bio_env = t.bio_env) (hident : s.identity_5d = t.identity_5d)
    (hbl : s.bioload_view = t.bioload_view) (hpc : s.power_church = t.power_church)
    (change : ProposedChange) (tuned : BioLoadView) :
    predict_post_state s change tuned = predict_post_state t change tuned := by
  unfold predict_post_state
  rw [henv, hident, hbl, hpc]

/-! Claim theorems. -/

/-- C2: for every (from, to) pair in the fixed enumerated downgrade set
(`is_neuromorph_downgrade`), and for all risk-of-harm before/after values,
`evaluate_reversal` on a context with that pair and the observer flag false
returns `Denied`. -/
theorem evaluate_reversal_denies_downgrades (ctx : ReversalContext)
    (hdiag : ctx.diag_event = false)
    (hdown : is_neuromorph_downgrade ctx.cap_before ctx.cap_after = true) :
    ∃ r, evaluate_reversal ctx = ReversalDecision.Denied r := by
  unfold evaluate_reversal
  rw [hdiag]
  simp only [Bool.false_eq_true, if_false]
  rw [hdown]
  split_ifs <;> first | exact ⟨_, rfl⟩ | exact absurd rfl (by assumption)

/-- Witness for C2 at the concrete downgrade (GeneralUse, ModelOnly). -/
theorem evaluate_reversal_denies_downgrades_witness :
    ∃ r, evaluate_reversal ctxC2 = ReversalDecision.Denied r :=
  evaluate_reversal_denies_downgrades ctxC2 rfl rfl

/-- C10: the pair (CapLabBench, CapModelOnly) is not in the enumerated
downgrade set, and for every context with that pair and the observer flag
false, `evaluate_reversal` returns `Allowed` regardless of the risk-of-harm
values. -/
theorem lab_bench_to_model_only_allowed (ctx : ReversalContext)
    (hb : ctx.cap_before = CapabilityState.CapLabBench)
    (ha : ctx.cap_after = CapabilityState.CapModelOnly)
    (hdiag : ctx.diag_event = false) :
    is_neuromorph_downgrade ctx.cap_before ctx.cap_after = false ∧
    evaluate_reversal ctx = ReversalDecision.Allowed := by
  constructor
  · rw [hb, ha]
    rfl
  · unfold evaluate_reversal
    rw [hdiag, hb, ha]
    simp [is_neuromorph_downgrade]

/-- Witness for C10 at a concrete context. -/
theorem lab_bench_to_model_only_allowed_witness :
    is_neuromorph_downgrade ctxC10.cap_before ctxC10.cap_after = false ∧
    evaluate_reversal ctxC10 = ReversalDecision.Allowed :=
  lab_bench_to_model_only_allowed ctxC10 rfl rfl rfl

/-- C8: if none of the three justice (stress) metrics exceeds its configured
maximum, `apply_justice_tuning` returns the baseline corridor and baseline
bioload ceilings exactly unchanged. -/
theorem apply_justice_tuning_unstressed (site : SiteView) (rail_cfg : BioRailConfig)
    (bioload : BioLoadView)
    (h1 : site.justice_metrics.hpcc ≤ site.justice_cfg.hpcc_max)
    (h2 : site.justice_metrics.erg ≤ site.justice_cfg.erg_max)
    (h3 : site.justice_metrics.tecr ≤ site.justice_cfg.tecr_max) :
    apply_justice_tuning site rail_cfg bioload = (rail_cfg, bioload) := by
  unfold apply_justice_tuning
  have hns : ¬ (site.justice_metrics.hpcc > site.justice_cfg.hpcc_max ∨
      site.justice_metrics.erg > site.justice_cfg.erg_max ∨
      site.justice_metrics.tecr > site.justice_cfg.tecr_max) := by
    push_neg
    exact ⟨h1, h2, h3⟩
  rw [if_pos hns]

/-- Witness for C8 at the unstressed baseline site. -/
theorem apply_justice_tuning_unstressed_witness :
    apply_justice_tuning site0 cfg0 site0.bioload_view = (cfg0, site0.bioload_view) :=
  apply_justice_tuning_unstressed site0 cfg0 site0.bioload_view
    (by norm_num [site0]) (by norm_num [site0]) (by norm_num [site0])

/-- C7 (counterexample): at `site0` with identity-lifeforce delta 1, the
predicted identity lifeforce is 2, outside `[0,1]` — `predict_post_state`
does not clamp the identity lifeforce field. -/
theorem predict_identity_lifeforce_unclamped_cex :
    (predict_post_state site0 changeC7 site0.bioload_view).2.2.2.lifeforce = 2 ∧
    ¬ (predict_post_state site0 changeC7 site0.bioload_view).2.2.2.lifeforce ≤ 1 := by
  norm_num [predict_post_state, site0, changeC7, change0]

/-- C7 (amended): every identity-vector field of the predicted snapshot
except lifeforce is clamped to `[0,1]`; the lifeforce field is the plain
unclamped sum of the current value and its delta. -/
theorem predict_identity_clamped (site : SiteView) (change : ProposedChange)
    (tuned : BioLoadView) :
    (0 ≤ (predict_post_state site change tuned).2.2.2.biostate_load ∧
      (predict_post_state site change tuned).2.2.2.biostate_load ≤ 1) ∧
    (0 ≤ (predict_post_state site change tuned).2.2.2.neurostate_fear ∧
      (predict_post_state site change tuned).2.2.2.neurostate_fear ≤ 1) ∧
    (0 ≤ (predict_post_state site change tuned).2.2.2.context_load ∧
      (predict_post_state site change tuned).2.2.2.context_load ≤ 1) ∧
    (0 ≤ (predict_post_state site change tuned).2.2.2.sovereignty_trust ∧
      (predict_post_state site change tuned).2.2.2.sovereignty_trust ≤ 1) ∧
    (predict_post_state site change tuned).2.2.2.lifeforce =
      site.identity_5d.lifeforce + change.delta_lifeforce := by
  refine ⟨⟨?_, ?_⟩, ⟨?_, ?_⟩, ⟨?_, ?_⟩, ⟨?_, ?_⟩, rfl⟩ <;>
    first | exact clamp01_nonneg _ | exact clamp01_le_one _

/-- C6 (code divergence): with the diagnostic-only flag unset, the release
build of `gate` (where `debug_assert!` is compiled out) proceeds and returns
`Allow` at a benign input instead of failing closed with `ForceRepair`. -/
theorem gate_fails_open_when_flag_unset :
    siteC6.diag.role_diagnostic_only = false ∧
    gate siteC6 cfg0 change0 = GateVerdict.Allow ∧
    gate siteC6 cfg0 change0 ≠ GateVerdict.ForceRepair := by
  have hg : gate siteC6 cfg0 change0 = GateVerdict.Allow := by
    norm_num [gate, gatePred, gateTuned, gatePredB, gatePredSite, predict_post_state,
      apply_justice_tuning, compute_biosignature, check_envelopes, check_bioload,
      check_power_church, clamp01, eps, RailScalar.new_clamped, RailScalar.value,
      siteC6, site0, cfg0, change0, min_def, max_def]
  refine ⟨rfl, hg, ?_⟩
  rw [hg]
  intro h
  exact GateVerdict.noConfusion h

/-- C1: whenever the predicted post-change envelope has risk-of-harm above
0.30 + 1e-9 or decay above 1.0 + 1e-9, and the site's diagnostic-only flag
is set, the scalar gate returns `ForceRepair`. -/
theorem gate_envelope_force_repair (site : SiteView) (base_cfg : BioRailConfig)
    (proposed : ProposedChange)
    (hdiag : site.diag.role_diagnostic_only = true)
    (h : (gatePred site base_cfg proposed).1.roh > 3/10 + eps ∨
         (gatePred site base_cfg proposed).1.decay > 1 + eps) :
    gate site base_cfg proposed = GateVerdict.ForceRepair := by
  have hce : check_envelopes (gatePred site base_cfg proposed).1 = false := by
    unfold check_envelopes
    split_ifs with h1 h2
    · rfl
    · rfl
    all_goals rcases h with h | h
    all_goals first | exact absurd h h1 | exact absurd h h2
  unfold gate
  rw [hce]
  simp

/-- Witness for C1: pushing risk-of-harm to 1 at the baseline site forces
repair. -/
theorem gate_envelope_force_repair_witness :
    gate site0 cfg0 changeRoh = GateVerdict.ForceRepair :=
  gate_envelope_force_repair site0 cfg0 changeRoh rfl (Or.inl (by
    norm_num [gatePred, gateTuned, predict_post_state, apply_justice_tuning,
      site0, cfg0, changeRoh, change0, eps, min_def, max_def]))

/-- C5 (counterexample): at `siteC5` the predicted ratio pair violates
`POWER ≤ k·CHURCH` beyond the tolerance, yet the gate returns `ForceRepair`
rather than `Block`, because the predicted envelope (risk-of-harm 1) also
fails and the envelope check runs first. -/
theorem gate_ratio_violation_cex :
    (gatePred siteC5 cfg0 change0).2.2.1.power >
      max (gatePred siteC5 cfg0 change0).2.2.1.k_ratio 0 *
        max (gatePred siteC5 cfg0 change0).2.2.1.church 0 + eps ∧
    gate siteC5 cfg0 change0 = GateVerdict.ForceRepair ∧
    gate siteC5 cfg0 change0 ≠ GateVerdict.Block := by
  have hg : gate siteC5 cfg0 change0 = GateVerdict.ForceRepair := by
    norm_num [gate, gatePred, gateTuned, gatePredB, gatePredSite, predict_post_state,
      apply_justice_tuning, compute_biosignature, check_envelopes, check_bioload,
      check_power_church, clamp01, eps, RailScalar.new_clamped, RailScalar.value,
      siteC5, site0, cfg0, change0, min_def, max_def]
  refine ⟨?_, hg, ?_⟩
  · norm_num [gatePred, gateTuned, predict_post_state, apply_justice_tuning,
      siteC5, site0, cfg0, change0, eps, min_def, max_def]
  · rw [hg]
    intro h
    exact GateVerdict.noConfusion h

/-- C5 (amended): when the predicted envelope and territorial checks pass
and the predicted ratio pair violates `POWER ≤ k·CHURCH` beyond the 1e-9
tolerance (with k and CHURCH floored at 0), the gate returns `Block`. -/
theorem gate_ratio_violation_block (site : SiteView) (base_cfg : BioRailConfig)
    (proposed : ProposedChange)
    (henv : check_envelopes (gatePred site base_cfg proposed).1 = true)
    (hbl : check_bioload (gatePred site base_cfg proposed).2.1 = true)
    (hratio : (gatePred site base_cfg proposed).2.2.1.power >
      max (gatePred site base_cfg proposed).2.2.1.k_ratio 0 *
        max (gatePred site base_cfg proposed).2.2.1.church 0 + eps) :
    gate site base_cfg proposed = GateVerdict.Block := by
  have hpc : check_power_church (gatePred site base_cfg proposed).2.2.1 = false := by
    unfold check_power_church
    exact decide_eq_false (not_le.mpr hratio)
  unfold gate
  rw [henv, hbl, hpc]
  simp

/-- Witness for the amended C5: only the ratio is violated at `siteC5b`, and
the gate blocks. -/
theorem gate_ratio_violation_block_witness :
    gate siteC5b cfg0 change0 = GateVerdict.Block :=
  gate_ratio_violation_block siteC5b cfg0 change0
    (by norm_num [check_envelopes, gatePred, gateTuned, predict_post_state,
      apply_justice_tuning, siteC5b, site0, cfg0, change0, eps, min_def, max_def])
    (by norm_num [check_bioload, gatePred, gateTuned, predict_post_state,
      apply_justice_tuning, siteC5b, site0, cfg0, change0, eps, clamp01,
      RailScalar.new_clamped, RailScalar.value, min_def, max_def])
    (by norm_num [gatePred, gateTuned, predict_post_state, apply_justice_tuning,
      siteC5b, site0, cfg0, change0, eps, min_def, max_def])

/-- C4: when the gate reaches the corridor check (envelope, territorial and
ratio checks all pass) and the predicted risk scalar lies outside the tuned
corridor, the gate returns `ForceRepair` if the predicted risk exceeds the
current risk and `Downscale` otherwise. -/
theorem gate_corridor_tiebreak (site : SiteView) (base_cfg : BioRailConfig)
    (proposed : ProposedChange)
    (henv : check_envelopes (gatePred site base_cfg proposed).1 = true)
    (hbl : check_bioload (gatePred site base_cfg proposed).2.1 = true)
    (hpc : check_power_church (gatePred site base_cfg proposed).2.2.1 = true)
    (hout : (gatePredB site base_cfg proposed).value < (gateTuned site base_cfg).1.corridor_min.value ∨
            (gatePredB site base_cfg proposed).value > (gateTuned site base_cfg).1.corridor_max.value) :
    ((gatePredB site base_cfg proposed).value > (compute_biosignature site).value →
        gate site base_cfg proposed = GateVerdict.ForceRepair) ∧
    (¬ (gatePredB site base_cfg proposed).value > (compute_biosignature site).value →
        gate site base_cfg proposed = GateVerdict.Downscale) := by
  unfold gate
  simp only [henv, hbl, hpc, hout, Bool.true_eq_false, if_false, if_true]
  constructor
  · intro h
    rw [if_pos h]
  · intro h
    rw [if_neg h]

/-- Witness for C4: at the baseline site with corridor `[1/2, 9/10]` the
predicted risk 0 is below the corridor and equal to the current risk, so the
gate downs­cales. -/
theorem gate_corridor_tiebreak_witness :
    gate site0 cfgC4 change0 = GateVerdict.Downscale :=
  (gate_corridor_tiebreak site0 cfgC4 change0
    (by norm_num [check_envelopes, gatePred, gateTuned, predict_post_state,
      apply_justice_tuning, site0, cfgC4, change0, eps, min_def, max_def])
    (by norm_num [check_bioload, gatePred, gateTuned, predict_post_state,
      apply_justice_tuning, site0, cfgC4, change0, eps, clamp01,
      RailScalar.new_clamped, RailScalar.value, min_def, max_def])
    (by norm_num [check_power_church, gatePred, gateTuned, predict_post_state,
      apply_justice_tuning, site0, cfgC4, change0, eps, min_def, max_def])
    (Or.inl (by norm_num [gatePredB, gatePredSite, gatePred, gateTuned,
      predict_post_state, apply_justice_tuning, compute_biosignature, clamp01,
      RailScalar.new_clamped, RailScalar.value, site0, cfgC4, change0, eps,
      min_def, max_def]))).2
    (by norm_num [gatePredB, gatePredSite, gatePred, gateTuned,
      predict_post_state, apply_justice_tuning, compute_biosignature, clamp01,
      RailScalar.new_clamped, RailScalar.value, site0, cfgC4, change0, eps,
      min_def, max_def])

/-- C9: the diagnostic flag booleans never influence the verdict — two site
views identical in every field except the diagnostic flags, both with the
diagnostic-only role set, receive the same verdict for the same baseline
corridor config and proposed change. -/
theorem gate_ignores_diagnostic_flags (s1 s2 : SiteView) (base_cfg : BioRailConfig)
    (proposed : ProposedChange)
    (hid : s1.id = s2.id)
    (henv : s1.bio_env = s2.bio_env)
    (hident : s1.identity_5d = s2.identity_5d)
    (hbl : s1.bioload_view = s2.bioload_view)
    (hpc : s1.power_church = s2.power_church)
    (hjm : s1.justice_metrics = s2.justice_metrics)
    (hjc : s1.justice_cfg = s2.justice_cfg)
    (hrole1 : s1.diag.role_diagnostic_only = true)
    (hrole2 : s2.diag.role_diagnostic_only = true) :
    gate s1 base_cfg proposed = gate s2 base_cfg proposed := by
  have htuned : gateTuned s1 base_cfg = gateTuned s2 base_cfg := by
    unfold gateTuned
    rw [hbl]
    exact apply_justice_tuning_congr s1 s2 hjm hjc base_cfg s2.bioload_view
  have hpred : gatePred s1 base_cfg proposed = gatePred s2 base_cfg proposed := by
    unfold gatePred
    rw [htuned]
    exact predict_post_state_congr s1 s2 henv hident hbl hpc proposed _
  have hcb : compute_biosignature s1 = compute_biosignature s2 :=
    compute_biosignature_congr s1 s2 henv hident
  have hpb : gatePredB s1 base_cfg proposed = gatePredB s2 base_cfg proposed := by
    unfold gatePredB
    exact compute_biosignature_congr _ _
      (by simp only [gatePredSite, hpred]) (by simp only [gatePredSite, hpred])
  unfold gate
  rw [hpred, hpb, htuned, hcb]

/-- Witness for C9: setting the `beast_tag` diagnostic flag does not change
the verdict at the baseline site. -/
theorem gate_ignores_diagnostic_flags_witness :
    gate site0 cfg0 change0 = gate siteC9 cfg0 change0 :=
  gate_ignores_diagnostic_flags site0 siteC9 cfg0 change0
    rfl rfl rfl rfl rfl rfl rfl rfl rfl

/-- C3: the risk projection is monotone — with the lifeforce inputs held
fixed, raising any of the risk-increasing inputs (biological load,
neuro-distress, contextual load, risk-of-harm, decay) does not decrease the
projected risk scalar, and raising sovereignty trust does not increase it.
Any single-input increase of the claim is the instance of this statement
where every other inequality is reflexive. -/
theorem compute_biosignature_monotone (s1 s2 : SiteView)
    (hlf : s1.bio_env.lifeforce = s2.bio_env.lifeforce)
    (hlfmin : s1.bio_env.lifeforce_min = s2.bio_env.lifeforce_min)
    (hlfmax : s1.bio_env.lifeforce_max = s2.bio_env.lifeforce_max)
    (hroh : s1.bio_env.roh ≤ s2.bio_env.roh)
    (hdecay : s1.bio_env.decay ≤ s2.bio_env.decay)
    (hbio : s1.identity_5d.biostate_load ≤ s2.identity_5d.biostate_load)
    (hfear : s1.identity_5d.neurostate_fear ≤ s2.identity_5d.neurostate_fear)
    (hctx : s1.identity_5d.context_load ≤ s2.identity_5d.context_load)
    (htrust : s2.identity_5d.sovereignty_trust ≤ s1.identity_5d.sovereignty_trust) :
    (compute_biosignature s1).value ≤ (compute_biosignature s2).value := by
  simp only [compute_biosignature, RailScalar.new_clamped, RailScalar.value]
  apply clamp01_mono
  apply clamp01_mono
  rw [hlf, hlfmin, hlfmax]
  have h1 := clamp01_mono hbio
  have h2 := clamp01_mono hfear
  have h3 := clamp01_mono hctx
  have h4 : clamp01 (s1.bio_env.roh / (3/10)) ≤ clamp01 (s2.bio_env.roh / (3/10)) :=
    clamp01_mono (by gcongr)
  have h5 := clamp01_mono hdecay
  have h6 := clamp01_mono htrust
  linarith

/-- Witness for C3: raising biological load from 0 to 1 at the baseline site
does not decrease the projected risk. -/
theorem compute_biosignature_monotone_witness :
    (compute_biosignature site0).value ≤ (compute_biosignature siteC3).value :=
  compute_biosignature_monotone site0 siteC3 rfl rfl rfl
    (by norm_num [site0, siteC3]) (by norm_num [site0, siteC3])
    (by norm_num [site0, siteC3]) (by norm_num [site0, siteC3])
    (by norm_num [site0, siteC3]) (by norm_num [site0, siteC3])
